import Mathlib

/-!
Verification of the CyberSource payment-processor integration
(`ecommerce/extensions/payment/processors.py` and
`ecommerce/extensions/payment/views.py`) against its specification.

Python dictionaries of form fields are modelled as association lists of
strings (`Dict`).  Bracket access (`d[k]`, which raises `KeyError`) is
modelled with `Except PyExc`; `d.get(k)` is modelled with `Option`.
Exceptions are modelled by the `PyExc` type; a function that can raise
returns `Except PyExc α` (or threads a database state and returns the
pair, when the source performs database writes before raising).
-/

namespace ECom

/-- A Python `dict` of form fields: an association list keyed by strings.
Lookup takes the first matching key; well-formed Python dicts have
distinct keys. -/
abbrev Dict := List (String × String)

/-- Exceptions that the modelled code can raise.  The `payment`
constructor groups the exceptions deriving from Oscar's `PaymentError`
(`InvalidSignatureError`, `UserCancelled`, `TransactionDeclined`,
`GatewayError`, `InvalidCyberSourceDecision`, `PartialAuthorizationError`),
which the view's `except PaymentError` clause catches. -/
inductive PaymentExc where
  | invalidSignature
  | userCancelled
  | transactionDeclined
  | gatewayError
  | invalidCyberSourceDecision
  | partialAuthorization
  deriving DecidableEq, Repr

inductive PyExc where
  | attributeError (name : String)
  | keyError (key : String)
  | invalidOperation
  | countryDoesNotExist
  | payment (e : PaymentExc)
  | unableToPlaceOrder
  deriving DecidableEq, Repr

instance {ε α : Type _} [DecidableEq ε] [DecidableEq α] : DecidableEq (Except ε α) := fun a b =>
  match a, b with
  | .error e, .error f =>
    if h : e = f then isTrue (by rw [h]) else isFalse (fun hh => h (Except.error.inj hh))
  | .error _, .ok _ => isFalse (fun hh => Except.noConfusion hh)
  | .ok _, .error _ => isFalse (fun hh => Except.noConfusion hh)
  | .ok x, .ok y =>
    if h : x = y then isTrue (by rw [h]) else isFalse (fun hh => h (Except.ok.inj hh))

/-- Python `d.get(k)`: `None` when the key is absent (first binding wins). -/
def Dict.get? : Dict → String → Option String
  | [], _ => none
  | kv :: rest, k => if kv.1 == k then some kv.2 else Dict.get? rest k

/-- Python bracket access `d[k]`, raising `KeyError` when absent. -/
def Dict.item (d : Dict) (k : String) : Except PyExc String :=
  match d.get? k with
  | some v => .ok v
  | none => .error (.keyError k)

/-- Python assignment `d[k] = v`: replaces the binding in place when the
key is present, otherwise appends the new binding at the end (Python
dicts preserve insertion order). -/
def Dict.set : Dict → String → String → Dict
  | [], k, v => [(k, v)]
  | kv :: rest, k, v => if kv.1 == k then (k, v) :: rest else kv :: Dict.set rest k v

/-- Python `d.keys()` (as a list, in insertion order). -/
def Dict.keys (d : Dict) : List String :=
  d.map (fun kv => kv.1)

/-- Python truthiness of an optional string (`None` and `''` are falsy). -/
def truthy : Option String → Bool
  | none => false
  | some s => !s.data.isEmpty

/-- Splitting a character list on every occurrence of a separator,
keeping empty pieces, as Python `str.split(sep)` does. -/
def splitChars (sep : Char) : List Char → List (List Char)
  | [] => [[]]
  | c :: cs =>
    match splitChars sep cs with
    | [] => [[c]]
    | h :: t => if c = sep then [] :: h :: t else (c :: h) :: t

/-- Python `s.split(sep)` for a one-character separator. -/
def pySplit (s : String) (sep : Char) : List String :=
  (splitChars sep s.data).map (fun l => String.mk l)

/-- Python `s.lower()` (the decision values handled here are ASCII). -/
def pyLower (s : String) : String :=
  String.mk (s.data.map Char.toLower)

/-- Python `s.strip()`: surrounding whitespace removed. -/
def pyTrim (s : String) : String :=
  String.mk (((s.data.dropWhile Char.isWhitespace).reverse.dropWhile Char.isWhitespace).reverse)

/-- Python `u','.join(l)`. -/
def joinComma : List String → String
  | [] => ""
  | [s] => s
  | s :: rest => s ++ "," ++ joinComma rest

/-- Lexicographic code-point comparison of character lists: the order
Python's `sorted` applies to strings. -/
def lexLt : List Char → List Char → Bool
  | [], [] => false
  | [], _ :: _ => true
  | _ :: _, [] => false
  | a :: as, b :: bs => if a < b then true else if b < a then false else lexLt as bs

/-- Insertion of a string into a lexicographically sorted list. -/
def insertSorted (s : String) : List String → List String
  | [] => [s]
  | t :: ts => if lexLt t.data s.data then t :: insertSorted s ts else s :: t :: ts

/-- Python `sorted` on a list of strings. -/
def sortStrings : List String → List String
  | [] => []
  | s :: ss => insertSorted s (sortStrings ss)

/-- Python `u'\x7bkey\x7d=\x7bvalue\x7d'.format(...)` renders the `None`
returned by `parameters.get(key)` for a missing key as the text `None`. -/
def fmtValue : Option String → String
  | some v => v
  | none => "None"

/-- The comma-joined `key=value` message signed by `_generate_signature`
(processors.py line 263), built over the given key list in order. -/
def canonicalMessage (parameters : Dict) (keys : List String) : String :=
  joinComma (keys.map (fun k => k ++ "=" ++ fmtValue (parameters.get? k)))

/-- Modelled from the spec: `ecommerce.extensions.payment.helpers.sign`
is not under `src/`; per the spec it is a deterministic keyed
message-authentication scheme (HMAC plus base64).  It is modelled as an
arbitrary function argument `sgn : message → secretKey → signature`;
being a function, it is deterministic, which is all the claims use. -/
abbrev SignFn := String → String → String

/-- Cybersource._generate_signature (processors.py lines 243-265): reads
the `signed_field_names` entry with bracket access (so a missing entry
raises `KeyError`), splits it on commas, and signs the canonical
`key=value` message over those keys in that literal order. -/
def generate_signature (sgn : SignFn) (secret_key : String) (parameters : Dict) :
    Except PyExc String :=
  match Dict.item parameters "signed_field_names" with
  | .error e => .error e
  | .ok sfn => .ok (sgn (canonicalMessage parameters (pySplit sfn ',')) secret_key)

/-- Cybersource.is_signature_valid (processors.py lines 267-268):
`response and (self._generate_signature(response) == response.get(u'signature'))`.
An empty dict is falsy, so Python returns the (falsy) dict itself,
modelled as the boolean `false`; otherwise the recomputed signature is
compared with `response.get('signature')` (comparison with `None` is
`False`).  A `KeyError` from `_generate_signature` propagates. -/
def is_signature_valid (sgn : SignFn) (secret_key : String) (response : Dict) :
    Except PyExc Bool :=
  if response.isEmpty then .ok false
  else
    match generate_signature sgn secret_key response with
    | .error e => .error e
    | .ok s => .ok (some s == Dict.get? response "signature")

/-- The processor configuration read in `Cybersource.__init__`
(processors.py lines 111-126). -/
structure CybersourceConfig where
  profile_id : String
  access_key : String
  secret_key : String
  payment_page_url : String
  receipt_page_url : Option String
  cancel_page_url : Option String
  language_code : String

/-- The basket fields read by `get_transaction_parameters`: `basket.id`,
`unicode(basket.total_incl_tax)` (modelled as the rendered string),
`basket.currency`, and `basket.owner.username`. -/
structure Basket where
  id : Nat
  total_incl_tax : String
  currency : String
  owner_username : String

/-- Lines 144-170 of processors.py: the parameter dict assembled by
`get_transaction_parameters` before the field names are signed — the
twelve base fields (the ambient effects `uuid.uuid4().hex` and
`datetime.datetime.utcnow().strftime(ISO_8601_FORMAT)` are passed in as
the arguments `transaction_uuid` and `signed_date_time`), then the
optional cancel/receipt page overrides, added only when truthy; a
configured default receipt page URL gets the basket id appended as a
query parameter unless an explicit override was supplied. -/
def parameters_with_overrides (cfg : CybersourceConfig) (basket : Basket)
    (transaction_uuid signed_date_time : String)
    (receipt_page_url cancel_page_url : Option String) : Dict :=
  let parameters : Dict := [
    ("access_key", cfg.access_key),
    ("profile_id", cfg.profile_id),
    ("transaction_uuid", transaction_uuid),
    ("signed_field_names", ""),
    ("unsigned_field_names", ""),
    ("signed_date_time", signed_date_time),
    ("locale", cfg.language_code),
    ("transaction_type", "sale"),
    ("reference_number", toString basket.id),
    ("amount", basket.total_incl_tax),
    ("currency", basket.currency),
    ("consumer_id", basket.owner_username)]
  let cancel_page_url := if truthy cancel_page_url then cancel_page_url else cfg.cancel_page_url
  let parameters :=
    if truthy cancel_page_url then
      Dict.set parameters "override_custom_cancel_page" (cancel_page_url.getD "")
    else parameters
  let receipt_page_url :=
    if truthy cfg.receipt_page_url && !truthy receipt_page_url then
      some ((cfg.receipt_page_url.getD "") ++ "?basket_id=" ++ toString basket.id)
    else receipt_page_url
  if truthy receipt_page_url then
    Dict.set parameters "override_custom_receipt_page" (receipt_page_url.getD "")
  else parameters

/-- Cybersource.get_transaction_parameters (processors.py lines 128-177).
The signed field names are the keys of the parameter dict taken before
the `signature` entry is added (the `signed_field_names` placeholder
entry is itself among them), sorted and comma-joined; the `signature`
entry is then attached (the `.error` fallback is unreachable because
`signed_field_names` was just set). -/
def get_transaction_parameters (sgn : SignFn) (cfg : CybersourceConfig)
    (basket : Basket) (transaction_uuid signed_date_time : String)
    (receipt_page_url cancel_page_url : Option String) : Dict :=
  let parameters :=
    parameters_with_overrides cfg basket transaction_uuid signed_date_time
      receipt_page_url cancel_page_url
  let signed_field_names := Dict.keys parameters
  let parameters :=
    Dict.set parameters "signed_field_names" (joinComma (sortStrings signed_field_names))
  let signature :=
    match generate_signature sgn cfg.secret_key parameters with
    | .ok s => s
    | .error _ => ""
  Dict.set parameters "signature" signature

/-- Numeric value of a nonempty list of decimal digits (`none` when any
character is not a digit). -/
def digitsToNat? (l : List Char) : Option Nat :=
  l.foldl
    (fun acc c =>
      match acc with
      | none => none
      | some n => if c.isDigit then some (n * 10 + (c.toNat - 48)) else none)
    (some 0)

/-- An exact decimal value as `decimal.Decimal` holds it: a signed
unscaled integer mantissa and a scale (number of fractional digits); the
value denoted is `mantissa / 10 ^ scale`. -/
structure DecVal where
  mantissa : Int
  scale : Nat
  deriving DecidableEq, Repr

/-- Numeric equality of exact decimal values (`Decimal.__eq__`):
`a.mantissa / 10 ^ a.scale = b.mantissa / 10 ^ b.scale`, cleared of
denominators. -/
def DecVal.numEq (a b : DecVal) : Bool :=
  a.mantissa * (10 : Int) ^ b.scale == b.mantissa * (10 : Int) ^ a.scale

/-- Python `decimal.Decimal(s)` on the plain decimal-literal fragment
used for monetary amounts: optional sign, digits with an optional
decimal point, surrounding whitespace stripped; the exact value is
returned.  Any other string raises `InvalidOperation` (modelled by
`none`). -/
def pyDecimal? (s : String) : Option DecVal :=
  let chars := (pyTrim s).data
  let signed : Int × List Char :=
    match chars with
    | '-' :: r => (-1, r)
    | '+' :: r => (1, r)
    | r => (1, r)
  match (splitChars '.' signed.2) with
  | [i] =>
    if i.isEmpty then none
    else (digitsToNat? i).map (fun n => ⟨signed.1 * n, 0⟩)
  | [i, f] =>
    if i.isEmpty && f.isEmpty then none
    else
      match digitsToNat? i, digitsToNat? f with
      | some ni, some nf => some ⟨signed.1 * (ni * 10 ^ f.length + nf), f.length⟩
      | _, _ => none
  | _ => none

/-- Comparison of two monetary strings as exact decimal values, the
comparison the specification describes for the authorized and requested
amounts (false when either string is not a decimal numeral). -/
def decimalValuesEqual (a b : String) : Bool :=
  match pyDecimal? a, pyDecimal? b with
  | some x, some y => x.numEq y
  | _, _ => false

/-- Python `decimal.Decimal(s)`, raising `InvalidOperation` on a
malformed string. -/
def pyDecimal (s : String) : Except PyExc DecVal :=
  match pyDecimal? s with
  | some q => .ok q
  | none => .error .invalidOperation

/-- Python `int(s)`: optional sign then decimal digits, surrounding
whitespace allowed; anything else raises `ValueError` (modelled by
`none`). -/
def pyInt? (s : String) : Option Int :=
  let chars := (pyTrim s).data
  let signed : Int × List Char :=
    match chars with
    | '-' :: r => (-1, r)
    | '+' :: r => (1, r)
    | r => (1, r)
  if signed.2.isEmpty then none
  else (digitsToNat? signed.2).map (fun n => signed.1 * n)

/-- A dynamically typed Python value, as far as the audit record needs:
the view passes a string where its callee expects the response dict and
vice versa, so both field slots must admit both shapes. -/
inductive PyVal where
  | str (s : String)
  | dict (d : Dict)
  deriving DecidableEq, Repr

/-- A persisted `PaymentProcessorResponse` row (migration 0003 declares
`processor_name` and `transaction_id` as `CharField`s and `response` as a
`JSONField`; the dynamically typed slots record what the code actually
stores). -/
structure PPRecord where
  processor_name : String
  transaction_id : Option PyVal
  response : PyVal
  basket : Option Int
  deriving DecidableEq, Repr

/-- The durable store: existing basket ids, known country codes, the
`SourceType` and `PaymentEventType` rows, the audit records, and placed
orders (by basket id). -/
structure DB where
  baskets : List Int
  countries : List String
  sourceTypes : List String
  eventTypes : List String
  pprs : List PPRecord
  orders : List Int
  deriving DecidableEq, Repr

/-- Django `Model.objects.get_or_create(name=...)` for `SourceType`. -/
def DB.getOrCreateSourceType (db : DB) (name : String) : DB :=
  if db.sourceTypes.contains name then db
  else { db with sourceTypes := db.sourceTypes ++ [name] }

/-- Django `Model.objects.get_or_create(name=...)` for `PaymentEventType`. -/
def DB.getOrCreateEventType (db : DB) (name : String) : DB :=
  if db.eventTypes.contains name then db
  else { db with eventTypes := db.eventTypes ++ [name] }

/-- The processor name constant `Cybersource.NAME` (processors.py line 109). -/
def cybersourceName : String := "cybersource"

/-- Modelled from the spec: `PaymentEventTypeName.PAID` lives in
`ecommerce.extensions.order.constants`, which is not under `src/`; the
spec fixes it to the well-known constant `"paid"`. -/
def PaymentEventTypeName.PAID : String := "paid"

/-- An (unsaved) Oscar `Source` instance as constructed at
processors.py lines 230-235; `source_type` is recorded by its name. -/
structure Source where
  source_type : String
  currency : String
  amount_allocated : DecVal
  amount_debited : DecVal
  reference : String
  label : String
  deriving DecidableEq, Repr

/-- An (unsaved) Oscar `PaymentEvent` instance as constructed at
processors.py line 239; `event_type` is recorded by its name. -/
structure PaymentEvent where
  event_type : String
  amount : DecVal
  reference : String
  processor_name : String
  deriving DecidableEq, Repr

/-- BasePaymentProcessor.record_processor_response (processors.py lines
85-100), for the Cybersource processor: creates one audit row with
`processor_name=self.NAME` and exactly the `response`, `transaction_id`
and `basket` arguments it was given, in the declared parameter order
`(response, transaction_id=None, basket=None)`. -/
def record_processor_response (db : DB) (response : PyVal)
    (transaction_id : Option PyVal) (basket : Option Int) : DB × PPRecord :=
  let ppr : PPRecord :=
    { processor_name := cybersourceName
      transaction_id := transaction_id
      response := response
      basket := basket }
  ({ db with pprs := db.pprs ++ [ppr] }, ppr)

/-- Cybersource.handle_processor_response (processors.py lines 179-241).
The database is threaded explicitly because the accept branch performs
`get_or_create` writes before later lookups can still raise; a raised
exception is returned as `.error` together with the database as mutated
so far. -/
def handle_processor_response (sgn : SignFn) (cfg : CybersourceConfig)
    (db : DB) (response : Dict) : DB × Except PyExc (Source × PaymentEvent) :=
  match is_signature_valid sgn cfg.secret_key response with
  | .error e => (db, .error e)
  | .ok valid =>
  if !valid then (db, .error (.payment .invalidSignature))
  else
  match Dict.item response "decision" with
  | .error e => (db, .error e)
  | .ok decisionRaw =>
  let decision := pyLower decisionRaw
  if decision != "accept" then
    (db, .error (.payment
      (if decision == "cancel" then .userCancelled
       else if decision == "decline" then .transactionDeclined
       else if decision == "error" then .gatewayError
       else .invalidCyberSourceDecision)))
  else
  match Dict.item response "auth_amount" with
  | .error e => (db, .error e)
  | .ok auth_amount =>
  match Dict.item response "req_amount" with
  | .error e => (db, .error e)
  | .ok req_amount =>
  if auth_amount != req_amount then (db, .error (.payment .partialAuthorization))
  else
  let db := db.getOrCreateSourceType cybersourceName
  match Dict.item response "req_currency" with
  | .error e => (db, .error e)
  | .ok currency =>
  match pyDecimal req_amount with
  | .error e => (db, .error e)
  | .ok total =>
  match Dict.item response "transaction_id" with
  | .error e => (db, .error e)
  | .ok transaction_id =>
  match Dict.item response "req_card_number" with
  | .error e => (db, .error e)
  | .ok req_card_number =>
  let source : Source :=
    { source_type := cybersourceName
      currency := currency
      amount_allocated := total
      amount_debited := total
      reference := transaction_id
      label := req_card_number }
  let db := db.getOrCreateEventType PaymentEventTypeName.PAID
  let event : PaymentEvent :=
    { event_type := PaymentEventTypeName.PAID
      amount := total
      reference := transaction_id
      processor_name := cybersourceName }
  (db, .ok (source, event))

/-- Modelled from the spec: order placement is delegated to the external
order-management collaborator (`handle_order_placement` from Oscar's
checkout mixins, not part of this repository), which either succeeds with
an updated store or signals `UnableToPlaceOrder` (modelled by `none`). -/
abbrev PlaceOrderFn := DB → Int → Source → PaymentEvent → Option DB

/-- Python attribute lookup followed by a call, for a validator method
looked up by name on the Cybersource processor instance.  The class,
together with its base `BasePaymentProcessor`, defines exactly the
methods `get_transaction_parameters`, `handle_processor_response`,
`_generate_signature`, `is_signature_valid`, `configuration` and
`record_processor_response`; looking up any other method name on the
instance raises `AttributeError`. -/
def processorValidatorCall (sgn : SignFn) (secret_key : String)
    (name : String) (response : Dict) : Except PyExc Bool :=
  if name == "is_signature_valid" then is_signature_valid sgn secret_key response
  else .error (.attributeError name)

/-- CyberSourceNotifyView.post, lines 83-143 of views.py: everything
after the signature-validity gate.  `.ok ()` models `HttpResponse()`
(HTTP 200, empty body); `.error e` models an exception escaping the view
(an HTTP 5xx server error).  Line 97 passes its local `transaction_id`
value and the response dict positionally into
`record_processor_response(self, response, transaction_id=None, ...)`,
so the string lands in the `response` slot and the dict in the
`transaction_id` slot. -/
def post_after_validation (sgn : SignFn) (cfg : CybersourceConfig)
    (place : PlaceOrderFn) (db : DB) (resp : Dict) : DB × Except PyExc Unit :=
  match Dict.item resp "req_reference_number" with
  | .error e => (db, .error e)
  | .ok basket_id_str =>
  let basket : Option Int :=
    match pyInt? basket_id_str with
    | none => none
    | some n => if db.baskets.contains n then some n else none
  match Dict.item resp "transaction_id" with
  | .error e => (db, .error e)
  | .ok transaction_id =>
  let recorded := record_processor_response db (.str transaction_id) (some (.dict resp)) basket
  let db := recorded.1
  match basket with
  | none => (db, .ok ())
  | some basketId =>
  match Dict.item resp "req_currency" with
  | .error e => (db, .error e)
  | .ok _currency =>
  match (match Dict.get? resp "req_tax_amount" with
         | none => Except.ok (⟨0, 0⟩ : DecVal)
         | some s => pyDecimal s) with
  | .error e => (db, .error e)
  | .ok _tax =>
  match Dict.item resp "req_amount" with
  | .error e => (db, .error e)
  | .ok req_amount_str =>
  match pyDecimal req_amount_str with
  | .error e => (db, .error e)
  | .ok _total =>
  let handled := handle_processor_response sgn cfg db resp
  let db := handled.1
  match handled.2 with
  | .error (.payment _) => (db, .ok ())
  | .error e => (db, .error e)
  | .ok (source, event) =>
  match Dict.item resp "req_bill_to_forename" with
  | .error e => (db, .error e)
  | .ok _ =>
  match Dict.item resp "req_bill_to_surname" with
  | .error e => (db, .error e)
  | .ok _ =>
  match Dict.item resp "req_bill_to_address_line1" with
  | .error e => (db, .error e)
  | .ok _ =>
  match Dict.item resp "req_bill_to_address_line2" with
  | .error e => (db, .error e)
  | .ok _ =>
  match Dict.item resp "req_bill_to_address_city" with
  | .error e => (db, .error e)
  | .ok _ =>
  match Dict.item resp "req_bill_to_address_postal_code" with
  | .error e => (db, .error e)
  | .ok _ =>
  match Dict.item resp "req_bill_to_address_state" with
  | .error e => (db, .error e)
  | .ok _ =>
  match Dict.item resp "req_bill_to_address_country" with
  | .error e => (db, .error e)
  | .ok country =>
  if !db.countries.contains country then (db, .error .countryDoesNotExist)
  else
  match place db basketId source event with
  | some db2 => (db2, .ok ())
  | none => (db, .ok ())

/-- CyberSourceNotifyView.post (views.py lines 70-143).  Line 79 invokes
`self.payment_processor.is_response_valid(cybersource_response)`; the
dispatch goes through `processorValidatorCall` with that literal name. -/
def post (sgn : SignFn) (cfg : CybersourceConfig) (place : PlaceOrderFn)
    (db : DB) (requestPOST : Dict) : DB × Except PyExc Unit :=
  let cybersource_response := requestPOST
  match processorValidatorCall sgn cfg.secret_key "is_response_valid" cybersource_response with
  | .error e => (db, .error e)
  | .ok valid =>
    if !valid then (db, .ok ())
    else post_after_validation sgn cfg place db cybersource_response

/-! Concrete fixtures used by witness theorems: a concrete signing
function (message and key concatenated, so distinct messages yield
distinct signatures), a concrete processor configuration, a concrete
store, and concrete notifications whose `signature` entries carry the
value the fixture signing function produces for them. -/

def sgnW : SignFn := fun m k => m ++ "|" ++ k

def cfgW : CybersourceConfig :=
  { profile_id := "pid"
    access_key := "ak"
    secret_key := "sec"
    payment_page_url := "https://pay.example"
    receipt_page_url := none
    cancel_page_url := none
    language_code := "en" }

def dbW : DB :=
  { baskets := [7]
    countries := ["US"]
    sourceTypes := []
    eventTypes := []
    pprs := []
    orders := [] }

/-- A signature-valid notification with decision CANCEL. -/
def notifCancel : Dict :=
  [("signed_field_names", "decision"), ("decision", "CANCEL"),
   ("signature", "decision=CANCEL|sec")]

/-- A signature-valid ACCEPT notification whose authorized and requested
amounts are distinct strings for the same decimal value. -/
def notifDecimalMismatch : Dict :=
  [("signed_field_names", "decision"), ("decision", "ACCEPT"),
   ("auth_amount", "100.0"), ("req_amount", "100.00"),
   ("signature", "decision=ACCEPT|sec")]

/-- A signature-valid ACCEPT notification with equal amounts and the full
field set the accept branch reads. -/
def notifAccept : Dict :=
  [("signed_field_names", "decision"), ("decision", "ACCEPT"),
   ("auth_amount", "100.00"), ("req_amount", "100.00"),
   ("req_currency", "USD"), ("transaction_id", "TX123"),
   ("req_card_number", "xxxx1111"), ("signature", "decision=ACCEPT|sec")]

/-- A signature-valid ACCEPT notification carrying a reference number
that resolves to no basket, as posted to the notify view. -/
def notifNoBasket : Dict :=
  [("signed_field_names", "decision"), ("decision", "ACCEPT"),
   ("auth_amount", "100.00"), ("req_amount", "100.00"),
   ("req_currency", "USD"), ("transaction_id", "TX123"),
   ("req_card_number", "xxxx1111"), ("req_reference_number", "abc"),
   ("signature", "decision=ACCEPT|sec")]

/-- A notification whose signature entry was tampered with. -/
def notifTampered : Dict :=
  [("signed_field_names", "decision"), ("decision", "ACCEPT"),
   ("auth_amount", "100.00"), ("req_amount", "100.00"),
   ("req_currency", "USD"), ("transaction_id", "TX123"),
   ("req_card_number", "xxxx1111"), ("req_reference_number", "7"),
   ("signature", "Tampered.")]

/-- An order-placement oracle for view witnesses: marks the basket's
order as placed. -/
def placeW : PlaceOrderFn := fun db basketId _ _ =>
  some { db with orders := db.orders ++ [basketId] }

/-! Helper lemmas about the dictionary model and the comma join/split
primitives. -/

theorem Dict.get?_set_self (d : Dict) (k v : String) :
    Dict.get? (Dict.set d k v) k = some v := by
  induction d with
  | nil => simp [Dict.set, Dict.get?]
  | cons hd tl ih =>
    by_cases h : hd.1 == k
    · simp [Dict.set, Dict.get?, h]
    · simp [Dict.set, Dict.get?, h, ih]

theorem Dict.get?_set_ne (d : Dict) (k k' v : String) (h : k ≠ k') :
    Dict.get? (Dict.set d k' v) k = Dict.get? d k := by
  induction d with
  | nil =>
    simp [Dict.set, Dict.get?]
    intro hh
    exact absurd hh.symm h
  | cons hd tl ih =>
    by_cases hh : hd.1 == k'
    · have e : hd.1 = k' := by simpa using hh
      have hk : (k' == k) = false := by
        simp only [beq_eq_false_iff_ne, ne_eq]
        exact fun x => h x.symm
      have hdk : (hd.1 == k) = false := by rw [e]; exact hk
      simp [Dict.set, Dict.get?, hh, hk, hdk]
    · simp [Dict.set, Dict.get?, hh, ih]

theorem Dict.isEmpty_set (d : Dict) (k v : String) :
    (Dict.set d k v).isEmpty = false := by
  cases d with
  | nil => simp [Dict.set]
  | cons hd tl =>
    by_cases h : hd.1 == k <;> simp [Dict.set, h]

theorem splitChars_ne_nil (sep : Char) (l : List Char) : splitChars sep l ≠ [] := by
  induction l with
  | nil => simp [splitChars]
  | cons c cs ih =>
    simp only [splitChars]
    cases h : splitChars sep cs with
    | nil => exact absurd h ih
    | cons hd tl =>
      by_cases hc : c = sep <;> simp [hc]

theorem splitChars_no_sep (sep : Char) (l : List Char) (h : sep ∉ l) :
    splitChars sep l = [l] := by
  induction l with
  | nil => rfl
  | cons c cs ih =>
    have hc : ¬c = sep := fun e => h (by simp [e])
    have hcs : sep ∉ cs := fun m => h (by simp [m])
    simp [splitChars, ih hcs, hc]

theorem splitChars_append_sep (sep : Char) (xs ys : List Char) (h : sep ∉ xs) :
    splitChars sep (xs ++ sep :: ys) = xs :: splitChars sep ys := by
  induction xs with
  | nil =>
    simp only [List.nil_append, splitChars]
    cases hs : splitChars sep ys with
    | nil => exact absurd hs (splitChars_ne_nil sep ys)
    | cons hd tl => simp
  | cons x xs ih =>
    have hx : ¬x = sep := fun e => h (by simp [e])
    have hxs : sep ∉ xs := fun m => h (by simp [m])
    simp only [List.cons_append, splitChars, List.append_eq]
    rw [ih hxs]
    simp [hx]

theorem pySplit_joinComma (l : List String) (hne : l ≠ [])
    (hsep : ∀ s ∈ l, ',' ∉ s.data) : pySplit (joinComma l) ',' = l := by
  induction l with
  | nil => exact absurd rfl hne
  | cons s rest ih =>
    cases rest with
    | nil =>
      have hs : ',' ∉ s.data := hsep s (by simp)
      simp [joinComma, pySplit, splitChars_no_sep ',' s.data hs]
    | cons t ts =>
      have hs : ',' ∉ s.data := hsep s (by simp)
      have hdata : (s ++ "," ++ joinComma (t :: ts)).data
          = s.data ++ ',' :: (joinComma (t :: ts)).data := by
        simp [String.data_append]
      have hrest : pySplit (joinComma (t :: ts)) ',' = t :: ts :=
        ih (by simp) (fun x hx => hsep x (by simp [hx]))
      simp only [joinComma, pySplit, hdata, splitChars_append_sep ',' s.data _ hs,
        List.map_cons]
      refine congrArg₂ List.cons rfl ?_
      simpa [pySplit] using hrest

theorem mem_insertSorted (s t : String) (l : List String) :
    t ∈ insertSorted s l ↔ t = s ∨ t ∈ l := by
  induction l with
  | nil => simp [insertSorted]
  | cons hd tl ih =>
    by_cases h : lexLt hd.data s.data = true
    · simp only [insertSorted, if_pos h, List.mem_cons, ih]
      tauto
    · simp only [insertSorted, if_neg h, List.mem_cons]

theorem mem_sortStrings (t : String) (l : List String) :
    t ∈ sortStrings l ↔ t ∈ l := by
  induction l with
  | nil => simp [sortStrings]
  | cons hd tl ih =>
    simp [sortStrings, mem_insertSorted, ih]

theorem sortStrings_ne_nil (l : List String) (h : l ≠ []) : sortStrings l ≠ [] := by
  cases l with
  | nil => exact absurd rfl h
  | cons s rest =>
    intro hh
    have : s ∈ sortStrings (s :: rest) := (mem_sortStrings s _).2 (by simp)
    rw [hh] at this
    exact absurd this (List.not_mem_nil s)

theorem canonicalMessage_congr (p q : Dict) (ks : List String)
    (h : ∀ k ∈ ks, Dict.get? p k = Dict.get? q k) :
    canonicalMessage p ks = canonicalMessage q ks := by
  unfold canonicalMessage
  refine congrArg joinComma (List.map_congr_left ?_)
  intro k hk
  rw [h k hk]

theorem signed_parameters_verify (sgn : SignFn) (secret : String) (p : Dict) (σ : String)
    (hne : Dict.keys p ≠ [])
    (hcomma : ∀ k ∈ Dict.keys p, ',' ∉ k.data)
    (hsig : "signature" ∉ Dict.keys p)
    (hσ : generate_signature sgn secret
        (Dict.set p "signed_field_names" (joinComma (sortStrings (Dict.keys p)))) = .ok σ) :
    is_signature_valid sgn secret
      (Dict.set (Dict.set p "signed_field_names" (joinComma (sortStrings (Dict.keys p))))
        "signature" σ) = .ok true := by
  set J := joinComma (sortStrings (Dict.keys p)) with hJdef
  set p3 := Dict.set p "signed_field_names" J with hp3
  have hJ : Dict.get? p3 "signed_field_names" = some J := Dict.get?_set_self p _ _
  have hks : pySplit J ',' = sortStrings (Dict.keys p) :=
    pySplit_joinComma _ (sortStrings_ne_nil _ hne)
      (fun s hs => hcomma s ((mem_sortStrings s _).1 hs))
  have hsig' : "signature" ∉ pySplit J ',' := by
    rw [hks]
    exact fun m => hsig ((mem_sortStrings _ _).1 m)
  have hgen3 : generate_signature sgn secret p3
      = .ok (sgn (canonicalMessage p3 (pySplit J ',')) secret) := by
    unfold generate_signature Dict.item
    rw [hJ]
  have hσval : σ = sgn (canonicalMessage p3 (pySplit J ',')) secret := by
    have := hσ
    rw [hgen3] at this
    exact (Except.ok.inj this).symm
  subst hσval
  set σ := sgn (canonicalMessage p3 (pySplit J ',')) secret with hσv
  set p4 := Dict.set p3 "signature" σ with hp4
  have hJ4 : Dict.get? p4 "signed_field_names" = some J := by
    rw [hp4, Dict.get?_set_ne _ _ _ _ (by decide)]
    exact hJ
  have hmsg : canonicalMessage p4 (pySplit J ',') = canonicalMessage p3 (pySplit J ',') :=
    canonicalMessage_congr _ _ _ (fun k hk =>
      Dict.get?_set_ne p3 k "signature" σ (fun e => hsig' (e ▸ hk)))
  have hgen4 : generate_signature sgn secret p4
      = .ok (sgn (canonicalMessage p4 (pySplit J ',')) secret) := by
    unfold generate_signature Dict.item
    rw [hJ4]
  rw [hmsg] at hgen4
  have hs4 : Dict.get? p4 "signature" = some σ := Dict.get?_set_self _ _ _
  unfold is_signature_valid
  rw [Dict.isEmpty_set, hgen4, hs4]
  simp

theorem keys_parameters_with_overrides (cfg : CybersourceConfig) (basket : Basket)
    (transaction_uuid signed_date_time : String)
    (receipt_page_url cancel_page_url : Option String) :
    Dict.keys (parameters_with_overrides cfg basket transaction_uuid signed_date_time
        receipt_page_url cancel_page_url) =
      ["access_key", "profile_id", "transaction_uuid", "signed_field_names",
       "unsigned_field_names", "signed_date_time", "locale", "transaction_type",
       "reference_number", "amount", "currency", "consumer_id"]
      ++ (if truthy (if truthy cancel_page_url then cancel_page_url else cfg.cancel_page_url)
          then ["override_custom_cancel_page"] else [])
      ++ (if truthy (if truthy cfg.receipt_page_url && !truthy receipt_page_url
              then some ((cfg.receipt_page_url.getD "") ++ "?basket_id=" ++ toString basket.id)
              else receipt_page_url)
          then ["override_custom_receipt_page"] else []) := by
  simp only [parameters_with_overrides]
  cases h1 : truthy (if truthy cancel_page_url then cancel_page_url else cfg.cancel_page_url) <;>
    cases h2 : truthy (if truthy cfg.receipt_page_url && !truthy receipt_page_url
        then some ((cfg.receipt_page_url.getD "") ++ "?basket_id=" ++ toString basket.id)
        else receipt_page_url) <;>
    simp only [if_true, if_false, Bool.false_eq_true, Bool.true_eq_false, ite_true, ite_false,
      if_neg, if_pos] <;>
    rfl

theorem mem_ite_singleton {c : Prop} [Decidable c] {k x : String}
    (h : k ∈ if c then [x] else ([] : List String)) : k = x := by
  split at h
  · simpa using h
  · simp at h

/-- C1: for every basket, processor configuration, ambient transaction
uuid and timestamp, and optional receipt/cancel URL overrides, the
parameter set returned by `get_transaction_parameters` passes signature
verification: `is_signature_valid` (which recomputes the signature over
the fields named in its `signed_field_names` value and compares it to its
`signature` field) returns true on it under the same secret key. -/
theorem C1_transaction_parameters_pass_verification (sgn : SignFn)
    (cfg : CybersourceConfig) (basket : Basket)
    (transaction_uuid signed_date_time : String)
    (receipt_page_url cancel_page_url : Option String) :
    is_signature_valid sgn cfg.secret_key
      (get_transaction_parameters sgn cfg basket transaction_uuid signed_date_time
        receipt_page_url cancel_page_url) = .ok true := by
  simp only [get_transaction_parameters]
  set P := parameters_with_overrides cfg basket transaction_uuid signed_date_time
    receipt_page_url cancel_page_url with hP
  set J := joinComma (sortStrings (Dict.keys P)) with hJ
  set p3 := Dict.set P "signed_field_names" J with hp3
  have hkeys := keys_parameters_with_overrides cfg basket transaction_uuid signed_date_time
    receipt_page_url cancel_page_url
  rw [← hP] at hkeys
  have hne : Dict.keys P ≠ [] := by
    rw [hkeys]
    simp
  have hcomma : ∀ k ∈ Dict.keys P, ',' ∉ k.data := by
    rw [hkeys]
    intro k hk
    rcases List.mem_append.1 hk with hk | hk
    · rcases List.mem_append.1 hk with hk | hk
      · fin_cases hk <;> decide
      · rw [mem_ite_singleton hk]
        decide
    · rw [mem_ite_singleton hk]
      decide
  have hsig : "signature" ∉ Dict.keys P := by
    rw [hkeys]
    intro m
    rcases List.mem_append.1 m with m | m
    · rcases List.mem_append.1 m with m | m
      · exact absurd m (by decide)
      · exact absurd (mem_ite_singleton m) (by decide)
    · exact absurd (mem_ite_singleton m) (by decide)
  have hj3 : Dict.get? p3 "signed_field_names" = some J := Dict.get?_set_self P _ _
  have hgen : generate_signature sgn cfg.secret_key p3
      = .ok (sgn (canonicalMessage p3 (pySplit J ',')) cfg.secret_key) := by
    unfold generate_signature Dict.item
    rw [hj3]
  simp only [hgen]
  exact signed_parameters_verify sgn cfg.secret_key P _ hne hcomma hsig hgen

/-- C9: the signature produced by `_generate_signature` is a
deterministic function of the secret key and of exactly the fields named
in the parameter set's `signed_field_names` value: two parameter sets
agreeing on `signed_field_names` and on every field listed there yield
the same signature under the same signing function and secret key, so
changing any field value not listed there does not change the
signature. -/
theorem C9_signature_depends_only_on_signed_fields (sgn : SignFn) (secret : String)
    (p₁ p₂ : Dict) (J : String)
    (h₁ : Dict.get? p₁ "signed_field_names" = some J)
    (h₂ : Dict.get? p₂ "signed_field_names" = some J)
    (h : ∀ k ∈ pySplit J ',', Dict.get? p₁ k = Dict.get? p₂ k) :
    generate_signature sgn secret p₁ = generate_signature sgn secret p₂ := by
  have g₁ : generate_signature sgn secret p₁
      = .ok (sgn (canonicalMessage p₁ (pySplit J ',')) secret) := by
    unfold generate_signature Dict.item
    rw [h₁]
  have g₂ : generate_signature sgn secret p₂
      = .ok (sgn (canonicalMessage p₂ (pySplit J ',')) secret) := by
    unfold generate_signature Dict.item
    rw [h₂]
  rw [g₁, g₂, canonicalMessage_congr p₁ p₂ _ h]

/-- Witness for C9: two parameter sets that differ only in a field not
named by `signed_field_names` receive the same signature. -/
theorem C9_witness :
    generate_signature sgnW "sec"
        [("signed_field_names", "a,signed_field_names"), ("a", "1"), ("b", "x")]
      = generate_signature sgnW "sec"
        [("signed_field_names", "a,signed_field_names"), ("a", "1"), ("b", "y")] :=
  C9_signature_depends_only_on_signed_fields sgnW "sec" _ _ "a,signed_field_names"
    (by decide) (by decide) (by decide)

/-- C10: on a nonempty notification mapping lacking the
`signed_field_names` key, `is_signature_valid` raises `KeyError` instead
of returning a boolean; the boolean contract (false for unverifiable
input) holds for the empty notification (Python returns the falsy dict
itself) and for any notification carrying a `signed_field_names` entry. -/
theorem C10_is_signature_valid_keyerror (sgn : SignFn) (secret : String) :
    (∀ p : Dict, p ≠ [] → Dict.get? p "signed_field_names" = none →
        is_signature_valid sgn secret p = .error (.keyError "signed_field_names"))
    ∧ is_signature_valid sgn secret [] = .ok false
    ∧ (∀ p : Dict, (Dict.get? p "signed_field_names").isSome →
        ∃ b, is_signature_valid sgn secret p = .ok b) := by
  refine ⟨?_, rfl, ?_⟩
  · intro p hne hnone
    have he : p.isEmpty = false := by
      cases p with
      | nil => exact absurd rfl hne
      | cons hd tl => simp
    unfold is_signature_valid generate_signature Dict.item
    rw [he, hnone]
    rfl
  · intro p hs
    rcases Option.isSome_iff_exists.1 hs with ⟨J, hJ⟩
    by_cases he : p.isEmpty = true
    · exact ⟨false, by unfold is_signature_valid; rw [if_pos he]⟩
    · have g : generate_signature sgn secret p
          = .ok (sgn (canonicalMessage p (pySplit J ',')) secret) := by
        unfold generate_signature Dict.item
        rw [hJ]
      refine ⟨some (sgn (canonicalMessage p (pySplit J ',')) secret) == Dict.get? p "signature", ?_⟩
      unfold is_signature_valid
      rw [if_neg he, g]

/-- Witness for C10: a concrete nonempty notification without
`signed_field_names` makes `is_signature_valid` raise `KeyError`. -/
theorem C10_witness :
    is_signature_valid sgnW "sec" [("decision", "ACCEPT")]
      = .error (.keyError "signed_field_names") :=
  (C10_is_signature_valid_keyerror sgnW "sec").1 [("decision", "ACCEPT")]
    (by decide) (by decide)

/-- C6: on a signature-valid notification whose lower-cased decision is
not "accept", `handle_processor_response` raises `UserCancelled` for
"cancel", `TransactionDeclined` for "decline", `GatewayError` for
"error" and `InvalidCyberSourceDecision` for any other value, returning
before any `Source` or `PaymentEvent` is constructed and leaving the
store unchanged. -/
theorem C6_non_accept_decision_faults (sgn : SignFn) (cfg : CybersourceConfig)
    (db : DB) (response : Dict) (d : String)
    (hvalid : is_signature_valid sgn cfg.secret_key response = .ok true)
    (hdec : Dict.get? response "decision" = some d)
    (hne : pyLower d ≠ "accept") :
    handle_processor_response sgn cfg db response =
      (db, .error (.payment
        (if pyLower d == "cancel" then .userCancelled
         else if pyLower d == "decline" then .transactionDeclined
         else if pyLower d == "error" then .gatewayError
         else .invalidCyberSourceDecision))) := by
  have hbne : (pyLower d != "accept") = true := bne_iff_ne.2 hne
  simp only [handle_processor_response, Dict.item, hvalid, hdec, hbne, Bool.not_true,
    Bool.false_eq_true, if_false, if_true, ite_true, ite_false]

/-- Witness for C6: a concrete signature-valid CANCEL notification makes
`handle_processor_response` raise `UserCancelled` with the store
untouched. -/
theorem C6_witness :
    handle_processor_response sgnW cfgW dbW notifCancel
      = (dbW, .error (.payment .userCancelled)) :=
  C6_non_accept_decision_faults sgnW cfgW dbW notifCancel "CANCEL"
    (by decide) (by decide) (by decide)

/-- Counterexample for C3: processors.py line 220 compares
`auth_amount` and `req_amount` with Python string inequality, not as
decimal values.  At a signature-valid ACCEPT notification carrying
`auth_amount = "100.0"` and `req_amount = "100.00"` — two
representations of the same exact decimal value — the claimed
equivalence "raises `PartialAuthorizationError` iff the amounts differ
as exact decimal values" is false: the code raises although the decimal
values coincide. -/
theorem C3_counterexample :
    ¬ (((handle_processor_response sgnW cfgW dbW notifDecimalMismatch).2
          = .error (.payment .partialAuthorization))
        ↔ decimalValuesEqual "100.0" "100.00" = false) := by
  decide

/-- C3 (amended): on a signature-valid notification with decision
"accept" (case-insensitive) carrying `auth_amount` and `req_amount`
entries, `handle_processor_response` raises `PartialAuthorizationError`
if and only if the two amount strings differ under exact string
comparison — so two distinct string representations of the same decimal
number, such as "100.0" and "100.00", are treated as different and do
raise. -/
theorem C3_partial_auth_iff_string_mismatch (sgn : SignFn) (cfg : CybersourceConfig)
    (db : DB) (response : Dict) (d auth req : String)
    (hvalid : is_signature_valid sgn cfg.secret_key response = .ok true)
    (hdec : Dict.get? response "decision" = some d)
    (hacc : pyLower d = "accept")
    (hauth : Dict.get? response "auth_amount" = some auth)
    (hreq : Dict.get? response "req_amount" = some req) :
    ((handle_processor_response sgn cfg db response).2
        = .error (.payment .partialAuthorization))
      ↔ auth ≠ req := by
  have hbne : (pyLower d != "accept") = false := by
    simp [hacc]
  by_cases h : auth = req
  · subst h
    have hno : (handle_processor_response sgn cfg db response).2
        ≠ .error (.payment .partialAuthorization) := by
      simp only [handle_processor_response, Dict.item, hvalid, hdec, hbne, hauth, hreq,
        bne_self_eq_false, Bool.not_true, Bool.false_eq_true, if_false, if_true,
        ite_true, ite_false]
      cases hcur : Dict.get? response "req_currency" with
      | none => simp
      | some c =>
        simp only []
        cases hq : pyDecimal? auth with
        | none => simp [pyDecimal, hq]
        | some q =>
          simp only [pyDecimal, hq]
          cases htid : Dict.get? response "transaction_id" with
          | none => simp
          | some tid =>
            simp only []
            cases hcard : Dict.get? response "req_card_number" with
            | none => simp
            | some card => simp
    simp [hno]
  · have hb : (auth != req) = true := bne_iff_ne.2 h
    simp only [handle_processor_response, Dict.item, hvalid, hdec, hbne, hauth, hreq, hb,
      Bool.not_true, Bool.false_eq_true, if_false, if_true, ite_true, ite_false]
    simp [h]

/-- Witness for C3 (amended): at the concrete mismatching-representation
notification the code does raise `PartialAuthorizationError`. -/
theorem C3_witness :
    (handle_processor_response sgnW cfgW dbW notifDecimalMismatch).2
      = .error (.payment .partialAuthorization) :=
  (C3_partial_auth_iff_string_mismatch sgnW cfgW dbW notifDecimalMismatch
      "ACCEPT" "100.0" "100.00" (by decide) (by decide) (by decide) (by decide)
      (by decide)).2 (by decide)

/-- C8: on a signature-valid notification with decision "accept" and
equal authorized and requested amount strings, `handle_processor_response`
returns a `Source` whose currency is the requested currency, whose
`amount_allocated` and `amount_debited` both equal the requested amount,
whose reference is the transaction identifier and whose label is the
card identifier, paired with a `PaymentEvent` carrying the fixed "paid"
event type, the same amount, the same transaction reference and the
processor name; the only store writes are the two `get_or_create`
lookups of the source and event types. -/
theorem C8_accept_materializes_source_and_event (sgn : SignFn)
    (cfg : CybersourceConfig) (db : DB) (response : Dict)
    (d amount c tid card : String) (q : DecVal)
    (hvalid : is_signature_valid sgn cfg.secret_key response = .ok true)
    (hdec : Dict.get? response "decision" = some d)
    (hacc : pyLower d = "accept")
    (hauth : Dict.get? response "auth_amount" = some amount)
    (hreq : Dict.get? response "req_amount" = some amount)
    (hcur : Dict.get? response "req_currency" = some c)
    (hq : pyDecimal? amount = some q)
    (htid : Dict.get? response "transaction_id" = some tid)
    (hcard : Dict.get? response "req_card_number" = some card) :
    handle_processor_response sgn cfg db response =
      ((db.getOrCreateSourceType cybersourceName).getOrCreateEventType
          PaymentEventTypeName.PAID,
       .ok
        ({ source_type := cybersourceName
           currency := c
           amount_allocated := q
           amount_debited := q
           reference := tid
           label := card },
         { event_type := PaymentEventTypeName.PAID
           amount := q
           reference := tid
           processor_name := cybersourceName })) := by
  have hbne : (pyLower d != "accept") = false := by
    simp [hacc]
  simp only [handle_processor_response, Dict.item, pyDecimal, hvalid, hdec, hbne, hauth,
    hreq, hcur, hq, htid, hcard, bne_self_eq_false, Bool.not_true, Bool.false_eq_true,
    if_false, if_true, ite_true, ite_false]

/-- Witness for C8: the concrete accepted notification yields the
expected `Source` and `PaymentEvent`. -/
theorem C8_witness :
    handle_processor_response sgnW cfgW dbW notifAccept =
      ((dbW.getOrCreateSourceType cybersourceName).getOrCreateEventType
          PaymentEventTypeName.PAID,
       .ok
        ({ source_type := cybersourceName
           currency := "USD"
           amount_allocated := ⟨10000, 2⟩
           amount_debited := ⟨10000, 2⟩
           reference := "TX123"
           label := "xxxx1111" },
         { event_type := PaymentEventTypeName.PAID
           amount := ⟨10000, 2⟩
           reference := "TX123"
           processor_name := cybersourceName })) :=
  C8_accept_materializes_source_and_event sgnW cfgW dbW notifAccept
    "ACCEPT" "100.00" "USD" "TX123" "xxxx1111" ⟨10000, 2⟩
    (by decide) (by decide) (by decide) (by decide) (by decide) (by decide)
    (by decide) (by decide) (by decide)

/-- C5 (code bug): the claim says the handler's response is always HTTP
200 with an empty body, whatever branch the handling takes.  Instead,
views.py line 79 invokes `self.payment_processor.is_response_valid`, a
method the `Cybersource` processor does not define (processors.py
defines `is_signature_valid`), so every POST raises `AttributeError`
before any branch is reached; the exception escapes the view as an HTTP
server error, contradicting the view's own tests ("The view should
always return 200").  The store is left unchanged. -/
theorem C5_every_post_raises_attribute_error (sgn : SignFn) (cfg : CybersourceConfig)
    (place : PlaceOrderFn) (db : DB) (requestPOST : Dict) :
    post sgn cfg place db requestPOST
      = (db, .error (.attributeError "is_response_valid")) := rfl

/-- C4 (code bug): the claim says an invalid-signature notification gets
HTTP 200 and persists nothing.  Nothing is persisted, but the response
is not 200: the view raises `AttributeError` at the
`is_response_valid` call before the signature is ever checked.  The
conjuncts show the crash with the store unchanged (so zero audit
records, orders, sources and events), and that the processor's actual
validator would indeed have rejected this tampered notification. -/
theorem C4_tampered_signature_crashes_instead_of_http200 :
    post sgnW cfgW placeW dbW notifTampered
        = (dbW, .error (.attributeError "is_response_valid"))
      ∧ is_signature_valid sgnW cfgW.secret_key notifTampered = .ok false
      ∧ dbW.pprs = [] ∧ dbW.orders = [] := by
  decide

/-- C2 (code bug): the claim says every signature-valid notification
gets exactly one audit record with `transaction_id` the notification's
transaction identifier and `response` the raw payload.  In fact the view
crashes with `AttributeError` before recording anything (first
conjunct, store unchanged); and even the recording call at views.py
line 97, exercised in isolation (second conjunct), passes
`(transaction_id, cybersource_response)` positionally into
`record_processor_response(self, response, transaction_id=None, ...)`,
so the stored row carries the raw dict in `transaction_id` and the
transaction-identifier string in `response` — swapped relative to the
claim, the method's docstring, and migration 0003's column types. -/
theorem C2_audit_record_crash_and_swapped_fields :
    post sgnW cfgW placeW dbW notifNoBasket
        = (dbW, .error (.attributeError "is_response_valid"))
      ∧ (post_after_validation sgnW cfgW placeW dbW notifNoBasket).1.pprs
        = [{ processor_name := cybersourceName
             transaction_id := some (PyVal.dict notifNoBasket)
             response := PyVal.str "TX123"
             basket := none }] := by
  decide

/-- C7 (code bug): the claim says a signature-valid notification with a
missing, non-numeric or unresolvable reference number yields exactly one
audit record with a null basket link and HTTP 200.  The view instead
raises `AttributeError` on every request before recording anything
(first conjunct, store unchanged).  The remaining conjuncts exercise the
code after the broken validator call: a notification without
`req_reference_number` raises `KeyError` at views.py line 83 (so even
the intended path would 500 on the "missing" case), while a non-numeric
reference number does record one row with a null basket link and
acknowledge. -/
theorem C7_unresolvable_basket_crashes_instead_of_recording :
    post sgnW cfgW placeW dbW notifNoBasket
        = (dbW, .error (.attributeError "is_response_valid"))
      ∧ post_after_validation sgnW cfgW placeW dbW notifAccept
        = (dbW, .error (.keyError "req_reference_number"))
      ∧ (post_after_validation sgnW cfgW placeW dbW notifNoBasket).2 = .ok ()
      ∧ ((post_after_validation sgnW cfgW placeW dbW notifNoBasket).1.pprs.map
            (fun r => r.basket)) = [none] := by
  decide

end ECom
